import Mathlib

/-!
Verification of the dispatch and algorithm layer of a GPU quantization /
optimizer kernel library (`csrc/ops.cu` together with the host header that
defines the `CUDA_CHECK_RETURN` macro and the optimizer enum).

The dispatch layer performs no numerical work itself: each host routine
computes a work-group count from the element count `n`, optionally zeroes
accumulator buffers with `cudaMemset`, launches one or two device kernels,
and checks the accelerator runtime for errors after each launch.  We embed
each host routine as the trace of host-side events it issues, in program
order: `memset` events (each issued inside a `CUDA_CHECK_RETURN`), kernel
`launch` events carrying their grid (`blocks`) and block (`threads`)
dimensions, and `peekCheck` events for the explicit
`CUDA_CHECK_RETURN(cudaPeekAtLastError())` statements.

Device kernel bodies are outside this source layer; where a claim depends
on what a kernel computes (blockwise quantization round-trip, the
percentile-clipping norm accumulation) the kernel's effect is modelled from
the specification, over exact rationals, and marked as such.
-/

namespace Ops

/-- Optimizer kind. The host header defines `ADAM = 0` and `MOMENTUM = 1`;
the optimizer template parameter is a plain machine integer, so the model
uses `ℕ`. -/
def ADAM : ℕ := 0

/-- Optimizer kind `MOMENTUM = 1` from the host header enum. -/
def MOMENTUM : ℕ := 1

/-- Modelled from the spec: `RMSPROP` is used by the dispatch switch but its
numeric value is not in the sources shown; the spec says the enum values are
implied by extension of `{ADAM = 0, MOMENTUM = 1}`, so `RMSPROP = 2`. -/
def RMSPROP : ℕ := 2

/-- Modelled from the spec: `ADAGRAD` continues the enum extension,
`ADAGRAD = 3`. Only its distinctness from the other three kinds matters to
the dispatch switch. -/
def ADAGRAD : ℕ := 3

/-- The device kernels launched by the dispatch layer (names as in the
source; bodies are outside this layer). -/
inductive Kernel where
  | kHistogramScatterAdd2D
  | kEstimateQuantiles
  | kQuantize
  | kDequantize
  | kQuantizeBlockwise
  | kDequantizeBlockwise
  | kPreconditionOptimizer32bit2State
  | kOptimizer32bit2State
  | kPreconditionOptimizer32bit1State
  | kOptimizer32bit1State
  | kPreconditionOptimizerStatic8bit2State
  | kOptimizerStatic8bit2State
  | kPreconditionOptimizerStatic8bit1State
  | kOptimizerStatic8bit1State
  | kOptimizerStatic8bit2StateBlockwise
  | kOptimizerStatic8bit1StateBlockwise
  | kPercentileClipping
  deriving DecidableEq, Repr

/-- The caller-owned buffers that the host code zeroes with `cudaMemset`:
the update-norm scalar `unorm`, the running-max scalars `new_max1` and
`new_max2`, the 256-entry codebook `code`, and one slot of the 100-entry
gradient-norm history. -/
inductive Buf where
  | unorm
  | newMax1
  | newMax2
  | code
  | gnormSlot (i : ℕ)
  deriving DecidableEq, Repr

/-- A host-side event issued by a dispatch routine, in program order. -/
inductive Ev where
  | memset (b : Buf)
  | launch (k : Kernel) (blocks threads : ℕ)
  | peekCheck
  deriving DecidableEq, Repr

/-- Work-group count used by every routine, verbatim from the source
pattern `int blocks = n/e; blocks = n % e == 0 ? blocks : blocks + 1;`. -/
def blocksFor (n e : ℕ) : ℕ :=
  if n % e = 0 then n / e else n / e + 1

/-- `histogramScatterAdd2D`: one launch of 512 threads over `n/512` rounded
up work-groups, then an error check. -/
def histogramScatterAdd2D (n : ℕ) : List Ev :=
  [Ev.launch .kHistogramScatterAdd2D (blocksFor n 512) 512, Ev.peekCheck]

/-- `estimateQuantiles`: zero the 256-float codebook, then one launch of
512 threads over `n/4096` rounded up work-groups, then an error check. -/
def estimateQuantiles (n : ℕ) : List Ev :=
  [Ev.memset .code, Ev.launch .kEstimateQuantiles (blocksFor n 4096) 512, Ev.peekCheck]

/-- `quantize`: one launch of 1024 threads over `n/1024` rounded up
work-groups, then an error check. -/
def quantize (n : ℕ) : List Ev :=
  [Ev.launch .kQuantize (blocksFor n 1024) 1024, Ev.peekCheck]

/-- `dequantize`: one launch of 1024 threads over `n/1024` rounded up
work-groups, then an error check. -/
def dequantize (n : ℕ) : List Ev :=
  [Ev.launch .kDequantize (blocksFor n 1024) 1024, Ev.peekCheck]

/-- `quantizeBlockwise`: one launch of 1024 threads over `n/4096` rounded
up work-groups (4096 elements per block, 4 per thread), then a check. -/
def quantizeBlockwise (n : ℕ) : List Ev :=
  [Ev.launch .kQuantizeBlockwise (blocksFor n 4096) 1024, Ev.peekCheck]

/-- `dequantizeBlockwise`: the block count is computed from the runtime
`blocksize` argument; a kernel is launched only for `blocksize = 4096`
(1024 threads) or `blocksize = 2048` (512 threads).  The trailing
`CUDA_CHECK_RETURN(cudaPeekAtLastError())` sits outside the if/else chain
and runs in every call. -/
def dequantizeBlockwise (blocksize n : ℕ) : List Ev :=
  (if blocksize = 4096 then
    [Ev.launch .kDequantizeBlockwise (blocksFor n blocksize) (4096 / 4)]
  else if blocksize = 2048 then
    [Ev.launch .kDequantizeBlockwise (blocksFor n blocksize) (2048 / 4)]
  else []) ++ [Ev.peekCheck]

/-- `optimizer32bit`: switch over the optimizer kind.  `ADAM` uses the
2-state kernels, `MOMENTUM`/`RMSPROP`/`ADAGRAD` share the 1-state case; in
each case, when `max_unorm > 0` the `unorm` scalar is zeroed and a
512-thread precondition kernel runs before the 1024-thread update kernel.
An optimizer value outside the four cases matches no case of the switch and
issues nothing. -/
def optimizer32bit (opt : ℕ) (max_unorm : ℚ) (n : ℕ) : List Ev :=
  let blocks := blocksFor n 4096
  if opt = ADAM then
    (if 0 < max_unorm then
      [Ev.memset .unorm,
       Ev.launch .kPreconditionOptimizer32bit2State blocks 512, Ev.peekCheck]
    else []) ++
    [Ev.launch .kOptimizer32bit2State blocks 1024, Ev.peekCheck]
  else if opt = MOMENTUM ∨ opt = RMSPROP ∨ opt = ADAGRAD then
    (if 0 < max_unorm then
      [Ev.memset .unorm,
       Ev.launch .kPreconditionOptimizer32bit1State blocks 512, Ev.peekCheck]
    else []) ++
    [Ev.launch .kOptimizer32bit1State blocks 1024, Ev.peekCheck]
  else []

/-- `optimizerStatic8bit`: the `unorm` zeroing (when `max_unorm > 0`)
precedes the optimizer-kind switch.  `ADAM` zeroes both `new_max1` and
`new_max2` then runs precondition (256 threads) and update (1024 threads);
the 1-state kinds zero only `new_max1`; any other kind falls into the empty
`default` branch. -/
def optimizerStatic8bit (opt : ℕ) (max_unorm : ℚ) (n : ℕ) : List Ev :=
  let blocks := blocksFor n 4096
  (if 0 < max_unorm then [Ev.memset .unorm] else []) ++
  (if opt = ADAM then
    [Ev.memset .newMax1, Ev.memset .newMax2,
     Ev.launch .kPreconditionOptimizerStatic8bit2State blocks 256, Ev.peekCheck,
     Ev.launch .kOptimizerStatic8bit2State blocks 1024, Ev.peekCheck]
  else if opt = MOMENTUM ∨ opt = RMSPROP ∨ opt = ADAGRAD then
    [Ev.memset .newMax1,
     Ev.launch .kPreconditionOptimizerStatic8bit1State blocks 256, Ev.peekCheck,
     Ev.launch .kOptimizerStatic8bit1State blocks 1024, Ev.peekCheck]
  else [])

/-- `optimizerStatic8bitBlockwise`: a single fused kernel per kind, 2048
elements per block and 8 per thread (256 threads); no default branch, so an
unlisted kind issues nothing. -/
def optimizerStatic8bitBlockwise (opt : ℕ) (n : ℕ) : List Ev :=
  if opt = ADAM then
    [Ev.launch .kOptimizerStatic8bit2StateBlockwise (blocksFor n 2048) (2048 / 8), Ev.peekCheck]
  else if opt = MOMENTUM ∨ opt = RMSPROP ∨ opt = ADAGRAD then
    [Ev.launch .kOptimizerStatic8bit1StateBlockwise (blocksFor n 2048) (2048 / 8), Ev.peekCheck]
  else []

/-- `percentileClipping`: zero history slot `step % 100`, then one launch
of 512 threads over `n/2048` rounded up work-groups, then a check. -/
def percentileClipping (step n : ℕ) : List Ev :=
  [Ev.memset (.gnormSlot (step % 100)),
   Ev.launch .kPercentileClipping (blocksFor n 2048) 512, Ev.peekCheck]

/-- Whether a host event is a kernel launch. -/
def isLaunch : Ev → Bool
  | .launch _ _ _ => true
  | _ => false

/-- Whether a host event is an explicit error check. -/
def isCheck : Ev → Bool
  | .peekCheck => true
  | _ => false

/-- The grid sizes (work-group counts) of the kernel launches in a trace,
in order. -/
def launchBlocks (t : List Ev) : List ℕ :=
  t.foldr (fun e acc =>
    match e with
    | .launch _ b _ => b :: acc
    | _ => acc) []

/-- Whether every kernel launch in the trace is immediately followed by an
error check. -/
def launchesChecked : List Ev → Bool
  | [] => true
  | .launch _ _ _ :: rest =>
    match rest with
    | [] => false
    | e :: _ => isCheck e && launchesChecked rest
  | _ :: rest => launchesChecked rest

/-- The success status of the accelerator runtime (`cudaSuccess = 0`). -/
def cudaSuccess : ℕ := 0

/-- The `CUDA_CHECK_RETURN` macro from the host header: a non-success
status prints "Error <description> at line <L> in file <F>" to the error
stream and terminates the process with exit status 1 — modelled as an
`Except` whose error carries the printed line and the exit status; a
success status produces nothing. The enclosing routines return `void`, so
no error value ever reaches the caller. -/
def CUDA_CHECK_RETURN (stat : ℕ) (desc : String) (line : ℕ) (file : String) :
    Except (String × ℕ) Unit :=
  if stat ≠ cudaSuccess then
    Except.error
      ("Error " ++ desc ++ " at line " ++ toString line ++ " in file " ++ file, 1)
  else Except.ok ()

/-- The element types the library instantiates: 16-bit and 32-bit floats. -/
inductive ElemType where
  | half
  | float
  deriving DecidableEq, Repr

/-- The explicit template instantiations of `optimizerStatic8bit`, from the
`MAKE_optimizerStatic8bit` block: `ADAM`, `MOMENTUM`, `RMSPROP`, each at
`half` and `float`. -/
def optimizerStatic8bitInstantiations : List (ℕ × ElemType) :=
  [(ADAM, .half), (ADAM, .float),
   (MOMENTUM, .half), (MOMENTUM, .float),
   (RMSPROP, .half), (RMSPROP, .float)]

/-- The explicit template instantiations of `optimizer32bit`, from the
`MAKE_optimizer32bit` block: all four kinds at `half` and `float`. -/
def optimizer32bitInstantiations : List (ℕ × ElemType) :=
  [(ADAM, .half), (ADAM, .float),
   (MOMENTUM, .half), (MOMENTUM, .float),
   (RMSPROP, .half), (RMSPROP, .float),
   (ADAGRAD, .half), (ADAGRAD, .float)]

/-- The number of kernel launches in a trace. -/
def numLaunches (t : List Ev) : ℕ :=
  (t.filter isLaunch).length

/-- End index (exclusive) of block `b` of a buffer of `n` elements split
into blocks of `blocksize`; the final block may be ragged. -/
def blockEnd (blocksize n b : ℕ) : ℕ :=
  min ((b + 1) * blocksize) n

/-- Modelled from the spec: the body of the `kQuantizeBlockwise` kernel is
outside the dispatch sources.  Per the spec, each block's scale is the
maximum absolute magnitude of the elements the block holds (the ragged
final block only up to `n`).  Values are exact rationals. -/
def blockAbsmax (A : ℕ → ℚ) (blocksize n b : ℕ) : ℚ :=
  ((List.range (blockEnd blocksize n b - b * blocksize)).map
    (fun j => |A (b * blocksize + j)|)).foldr max 0

/-- Modelled from the spec: the non-stochastic `kQuantizeBlockwise` kernel
quantizes each element against the byte range scaled by its block's
absmax — element `i` of block `i / blocksize` becomes the nearest signed
byte code `round (127 * A i / absmax)`; a block whose absmax is zero is
all zeros and quantizes to code 0. -/
def quantizeBlockwiseElem (A : ℕ → ℚ) (blocksize n i : ℕ) : ℤ :=
  let m := blockAbsmax A blocksize n (i / blocksize)
  if m = 0 then 0 else round (127 * A i / m)

/-- Modelled from the spec: the `kDequantizeBlockwise` kernel rescales each
byte code by its block's stored absmax over the byte range. -/
def dequantizeBlockwiseElem (q : ℕ → ℤ) (absmax : ℕ → ℚ) (blocksize i : ℕ) : ℚ :=
  (q i : ℚ) * absmax (i / blocksize) / 127

/-- Modelled from the spec: the quantity `kPercentileClipping` accumulates
into the history slot — the (squared) L2 norm of the first `n` gradient
entries, as an exact rational.  (The model tracks the sum of squares; the
square root does not affect which call's gradient the slot reflects.) -/
def gradSqNorm (g : ℕ → ℚ) (n : ℕ) : ℚ :=
  ((List.range n).map (fun i => g i * g i)).sum

/-- Zero one slot of the 100-entry gradient-norm history (the effect of the
`cudaMemset` in `percentileClipping`). -/
def zeroSlot (slot : ℕ) (v : ℕ → ℚ) : ℕ → ℚ :=
  fun s => if s = slot then 0 else v s

/-- Accumulate a value into one history slot, leaving the others alone. -/
def addToSlot (slot : ℕ) (x : ℚ) (v : ℕ → ℚ) : ℕ → ℚ :=
  fun s => if s = slot then v s + x else v s

/-- The effect of one `percentileClipping(g, gnorm_vec, step, n)` call on
the history buffer: zero slot `step % 100`, then accumulate the norm of
`g` into that slot (kernel effect modelled from the spec). -/
def percentileClippingRun (g : ℕ → ℚ) (step n : ℕ) (v : ℕ → ℚ) : ℕ → ℚ :=
  addToSlot (step % 100) (gradSqNorm g n) (zeroSlot (step % 100) v)

/-- Run `percentileClipping` once per step in the given list, in order;
`G step` is the gradient buffer supplied at that step. -/
def runSteps (G : ℕ → ℕ → ℚ) (n : ℕ) (steps : List ℕ) (v : ℕ → ℚ) : ℕ → ℚ :=
  steps.foldl (fun acc st => percentileClippingRun (G st) st n acc) v

lemma blocksFor_ceil_512 (n : ℕ) : blocksFor n 512 = (n + 511) / 512 := by
  unfold blocksFor; split <;> omega

lemma blocksFor_ceil_1024 (n : ℕ) : blocksFor n 1024 = (n + 1023) / 1024 := by
  unfold blocksFor; split <;> omega

lemma blocksFor_ceil_2048 (n : ℕ) : blocksFor n 2048 = (n + 2047) / 2048 := by
  unfold blocksFor; split <;> omega

lemma blocksFor_ceil_4096 (n : ℕ) : blocksFor n 4096 = (n + 4095) / 4096 := by
  unfold blocksFor; split <;> omega

/-- C5: every routine launches its kernels over `ceil(n / E)` work-groups,
where `E` is the routine's elements-per-work-group count — 1024 for
`quantize`/`dequantize`, 4096 for `quantizeBlockwise`, `optimizer32bit`
(both phases), `estimateQuantiles` and `optimizerStatic8bit`, 2048 for
`percentileClipping` — and for `n = 0` every routine computes zero
work-groups, so no elementwise work is dispatched. -/
theorem claim5_workgroup_counts (n step opt : ℕ) (mu : ℚ) :
    launchBlocks (quantize n) = [(n + 1023) / 1024] ∧
    launchBlocks (dequantize n) = [(n + 1023) / 1024] ∧
    launchBlocks (quantizeBlockwise n) = [(n + 4095) / 4096] ∧
    launchBlocks (estimateQuantiles n) = [(n + 4095) / 4096] ∧
    launchBlocks (percentileClipping step n) = [(n + 2047) / 2048] ∧
    launchBlocks (histogramScatterAdd2D n) = [(n + 511) / 512] ∧
    ((launchBlocks (optimizer32bit opt mu n)).all
      (fun b => b == (n + 4095) / 4096)) = true ∧
    ((launchBlocks (optimizerStatic8bit opt mu n)).all
      (fun b => b == (n + 4095) / 4096)) = true ∧
    (n = 0 →
      launchBlocks (quantize n) = [0] ∧
      launchBlocks (dequantize n) = [0] ∧
      launchBlocks (quantizeBlockwise n) = [0] ∧
      launchBlocks (estimateQuantiles n) = [0] ∧
      launchBlocks (percentileClipping step n) = [0] ∧
      launchBlocks (histogramScatterAdd2D n) = [0]) := by
  have h512 := blocksFor_ceil_512 n
  have h1024 := blocksFor_ceil_1024 n
  have h2048 := blocksFor_ceil_2048 n
  have h4096 := blocksFor_ceil_4096 n
  refine ⟨?_, ?_, ?_, ?_, ?_, ?_, ?_, ?_, ?_⟩
  · simp [quantize, launchBlocks, h1024]
  · simp [dequantize, launchBlocks, h1024]
  · simp [quantizeBlockwise, launchBlocks, h4096]
  · simp [estimateQuantiles, launchBlocks, h4096]
  · simp [percentileClipping, launchBlocks, h2048]
  · simp [histogramScatterAdd2D, launchBlocks, h512]
  · unfold optimizer32bit
    split
    · split <;> simp [launchBlocks, h4096]
    · split
      · split <;> simp [launchBlocks, h4096]
      · simp [launchBlocks]
  · unfold optimizerStatic8bit
    by_cases hmu : 0 < mu <;>
      [skip; skip] <;>
      simp only [hmu, if_true, if_pos, if_neg, not_false_iff] <;>
      split <;> try split
    all_goals simp [launchBlocks, h4096, hmu]
  · intro hn
    subst hn
    refine ⟨?_, ?_, ?_, ?_, ?_, ?_⟩ <;>
      simp [quantize, dequantize, quantizeBlockwise, estimateQuantiles,
        percentileClipping, histogramScatterAdd2D, launchBlocks, blocksFor]

/-- Witness for C5 at `n = 0`. -/
theorem claim5_workgroup_counts_witness :
    (0 : ℕ) = 0 ∧ launchBlocks (quantize 0) = [0] :=
  ⟨rfl, ((claim5_workgroup_counts 0 0 0 0).2.2.2.2.2.2.2.2 rfl).1⟩

/-- C3: `dequantizeBlockwise` with a blocksize other than 2048 or 4096
executes no dispatch branch — no kernel launch, no memset, only the
unconditional trailing error check, so the out buffer is untouched; for
blocksize 2048 or 4096 exactly one kernel is launched. -/
theorem claim3_dequantizeBlockwise_dispatch (blocksize n : ℕ) :
    (blocksize ≠ 2048 → blocksize ≠ 4096 →
      dequantizeBlockwise blocksize n = [Ev.peekCheck]) ∧
    ((blocksize = 2048 ∨ blocksize = 4096) →
      numLaunches (dequantizeBlockwise blocksize n) = 1) := by
  constructor
  · intro h2 h4
    simp [dequantizeBlockwise, h2, h4]
  · rintro (rfl | rfl) <;>
      simp [dequantizeBlockwise, numLaunches, isLaunch]

/-- Witness for C3 at blocksize 7 (unsupported) and 2048 (supported). -/
theorem claim3_dequantizeBlockwise_dispatch_witness :
    dequantizeBlockwise 7 5 = [Ev.peekCheck] ∧
    numLaunches (dequantizeBlockwise 2048 5) = 1 :=
  ⟨(claim3_dequantizeBlockwise_dispatch 7 5).1 (by decide) (by decide),
   (claim3_dequantizeBlockwise_dispatch 2048 5).2 (Or.inl rfl)⟩

/-- C9: in `optimizerStatic8bit` the `unorm` zeroing sits before the
optimizer-kind switch, so a kind that falls into the empty `default`
branch still zeroes `unorm` when `max_unorm > 0`, although it launches no
kernel and touches no new-max scalar: the silent no-op is not a complete
no-op. -/
theorem claim9_static8bit_default_zeroes_unorm (opt : ℕ) (mu : ℚ) (n : ℕ)
    (h0 : opt ≠ ADAM) (h1 : opt ≠ MOMENTUM) (h2 : opt ≠ RMSPROP)
    (h3 : opt ≠ ADAGRAD) :
    (0 < mu → optimizerStatic8bit opt mu n = [Ev.memset .unorm]) ∧
    numLaunches (optimizerStatic8bit opt mu n) = 0 ∧
    Ev.memset .newMax1 ∉ optimizerStatic8bit opt mu n ∧
    Ev.memset .newMax2 ∉ optimizerStatic8bit opt mu n := by
  have hcase : optimizerStatic8bit opt mu n =
      if 0 < mu then [Ev.memset .unorm] else [] := by
    unfold optimizerStatic8bit
    simp [h0, h1, h2, h3]
  refine ⟨?_, ?_, ?_, ?_⟩ <;> rw [hcase] <;> by_cases hmu : 0 < mu <;>
    simp [hmu, numLaunches, isLaunch]

/-- Witness for C9 at the out-of-enum kind 7 with `max_unorm = 1`. -/
theorem claim9_static8bit_default_zeroes_unorm_witness :
    optimizerStatic8bit 7 1 64 = [Ev.memset .unorm] :=
  (claim9_static8bit_default_zeroes_unorm 7 1 64 (by decide) (by decide)
    (by decide) (by decide)).1 (by norm_num)

/-- C10: an `n = 0` call is not a pure no-op — zero work-groups are
computed (every launch in the trace has grid size 0), yet the host-side
zeroing still happens: `estimateQuantiles` memsets the 256-entry codebook,
`percentileClipping` memsets history slot `step % 100`, and
`optimizerStatic8bit` memsets its new-max scalar(s). -/
theorem claim10_zero_n_still_memsets (step : ℕ) (mu : ℚ) :
    (Ev.memset .code ∈ estimateQuantiles 0 ∧
      launchBlocks (estimateQuantiles 0) = [0]) ∧
    (Ev.memset (.gnormSlot (step % 100)) ∈ percentileClipping step 0 ∧
      launchBlocks (percentileClipping step 0) = [0]) ∧
    (Ev.memset .newMax1 ∈ optimizerStatic8bit ADAM mu 0 ∧
      Ev.memset .newMax2 ∈ optimizerStatic8bit ADAM mu 0 ∧
      launchBlocks (optimizerStatic8bit ADAM mu 0) = [0, 0]) ∧
    (Ev.memset .newMax1 ∈ optimizerStatic8bit MOMENTUM mu 0 ∧
      launchBlocks (optimizerStatic8bit MOMENTUM mu 0) = [0, 0]) := by
  refine ⟨⟨?_, ?_⟩, ⟨?_, ?_⟩, ⟨?_, ?_, ?_⟩, ⟨?_, ?_⟩⟩ <;>
    by_cases hmu : 0 < mu <;>
    simp [estimateQuantiles, percentileClipping, optimizerStatic8bit,
      launchBlocks, blocksFor, hmu, ADAM, MOMENTUM, RMSPROP, ADAGRAD]

/-- C1: for every optimizer kind in {ADAM, MOMENTUM, RMSPROP, ADAGRAD},
`optimizer32bit` launches the main update kernel in every call; when
`max_unorm > 0` the `unorm` scalar is zeroed first, then the precondition
kernel runs, then the main update kernel — the full trace in program
order. -/
theorem claim1_optimizer32bit_choreography (opt : ℕ) (mu : ℚ) (n : ℕ) :
    (opt = ADAM → 0 < mu →
      optimizer32bit opt mu n =
        [Ev.memset .unorm,
         Ev.launch .kPreconditionOptimizer32bit2State (blocksFor n 4096) 512,
         Ev.peekCheck,
         Ev.launch .kOptimizer32bit2State (blocksFor n 4096) 1024,
         Ev.peekCheck]) ∧
    (opt = ADAM → ¬ 0 < mu →
      optimizer32bit opt mu n =
        [Ev.launch .kOptimizer32bit2State (blocksFor n 4096) 1024,
         Ev.peekCheck]) ∧
    ((opt = MOMENTUM ∨ opt = RMSPROP ∨ opt = ADAGRAD) → 0 < mu →
      optimizer32bit opt mu n =
        [Ev.memset .unorm,
         Ev.launch .kPreconditionOptimizer32bit1State (blocksFor n 4096) 512,
         Ev.peekCheck,
         Ev.launch .kOptimizer32bit1State (blocksFor n 4096) 1024,
         Ev.peekCheck]) ∧
    ((opt = MOMENTUM ∨ opt = RMSPROP ∨ opt = ADAGRAD) → ¬ 0 < mu →
      optimizer32bit opt mu n =
        [Ev.launch .kOptimizer32bit1State (blocksFor n 4096) 1024,
         Ev.peekCheck]) := by
  refine ⟨?_, ?_, ?_, ?_⟩
  · rintro rfl hmu; simp [optimizer32bit, hmu]
  · rintro rfl hmu; simp [optimizer32bit, hmu]
  · rintro hopt hmu
    have hA : opt ≠ ADAM := by
      rcases hopt with rfl | rfl | rfl <;> decide
    simp [optimizer32bit, hA, hopt, hmu]
  · rintro hopt hmu
    have hA : opt ≠ ADAM := by
      rcases hopt with rfl | rfl | rfl <;> decide
    simp [optimizer32bit, hA, hopt, hmu]

/-- Witness for C1 at ADAM with `max_unorm = 1` and MOMENTUM with
`max_unorm = 0`, both at `n = 5`. -/
theorem claim1_optimizer32bit_choreography_witness :
    optimizer32bit ADAM 1 5 =
      [Ev.memset .unorm,
       Ev.launch .kPreconditionOptimizer32bit2State 1 512, Ev.peekCheck,
       Ev.launch .kOptimizer32bit2State 1 1024, Ev.peekCheck] ∧
    optimizer32bit MOMENTUM 0 5 =
      [Ev.launch .kOptimizer32bit1State 1 1024, Ev.peekCheck] :=
  ⟨(claim1_optimizer32bit_choreography ADAM 1 5).1 rfl (by norm_num),
   (claim1_optimizer32bit_choreography MOMENTUM 0 5).2.2.2 (Or.inl rfl)
     (by norm_num)⟩

/-- C4 counterexample: a supported 1-state call (`MOMENTUM`,
`max_unorm = 1`, `n = 4096`) never zeroes `new_max2`, so it is false that
both new-max scalars are set to zero before the precondition kernel in
every `optimizerStatic8bit` call. -/
theorem claim4_counterexample :
    Ev.memset Buf.newMax2 ∉ optimizerStatic8bit MOMENTUM 1 4096 := by
  decide

/-- C4 amended: every `optimizerStatic8bit` call for a kind listed in the
switch runs exactly the precondition kernel (256 threads) followed by the
update kernel (1024 threads); ADAM zeroes both `new_max1` and `new_max2`
before the precondition kernel, while the 1-state kinds zero only
`new_max1`. -/
theorem claim4_static8bit_choreography (opt : ℕ) (mu : ℚ) (n : ℕ) :
    (opt = ADAM →
      optimizerStatic8bit opt mu n =
        (if 0 < mu then [Ev.memset .unorm] else []) ++
        [Ev.memset .newMax1, Ev.memset .newMax2,
         Ev.launch .kPreconditionOptimizerStatic8bit2State (blocksFor n 4096) 256,
         Ev.peekCheck,
         Ev.launch .kOptimizerStatic8bit2State (blocksFor n 4096) 1024,
         Ev.peekCheck]) ∧
    ((opt = MOMENTUM ∨ opt = RMSPROP ∨ opt = ADAGRAD) →
      optimizerStatic8bit opt mu n =
        (if 0 < mu then [Ev.memset .unorm] else []) ++
        [Ev.memset .newMax1,
         Ev.launch .kPreconditionOptimizerStatic8bit1State (blocksFor n 4096) 256,
         Ev.peekCheck,
         Ev.launch .kOptimizerStatic8bit1State (blocksFor n 4096) 1024,
         Ev.peekCheck]) ∧
    ((opt = MOMENTUM ∨ opt = RMSPROP ∨ opt = ADAGRAD) →
      Ev.memset .newMax2 ∉ optimizerStatic8bit opt mu n) := by
  refine ⟨?_, ?_, ?_⟩
  · rintro rfl; simp [optimizerStatic8bit]
  · intro hopt
    have hA : opt ≠ ADAM := by
      rcases hopt with rfl | rfl | rfl <;> decide
    simp [optimizerStatic8bit, hA, hopt]
  · intro hopt
    have hA : opt ≠ ADAM := by
      rcases hopt with rfl | rfl | rfl <;> decide
    by_cases hmu : 0 < mu <;>
      simp [optimizerStatic8bit, hA, hopt, hmu]

/-- Witness for C4 (amended) at ADAM, `max_unorm = 0`, `n = 4096`. -/
theorem claim4_static8bit_choreography_witness :
    optimizerStatic8bit ADAM 0 4096 =
      (if (0 : ℚ) < 0 then [Ev.memset .unorm] else []) ++
      [Ev.memset .newMax1, Ev.memset .newMax2,
       Ev.launch .kPreconditionOptimizerStatic8bit2State 1 256, Ev.peekCheck,
       Ev.launch .kOptimizerStatic8bit2State 1 1024, Ev.peekCheck] :=
  (claim4_static8bit_choreography ADAM 0 4096).1 rfl

/-- C7: a non-success runtime status makes `CUDA_CHECK_RETURN` print
"Error <description> at line <L> in file <F>" and exit with status 1 (no
error value reaches the caller — the routines return `void`); a success
status produces nothing; and in every routine's trace each kernel launch
is immediately followed by an error check. -/
theorem claim7_error_policy (stat : ℕ) (desc file : String)
    (line n step opt bs : ℕ) (mu : ℚ) :
    (stat ≠ cudaSuccess →
      CUDA_CHECK_RETURN stat desc line file =
        Except.error
          ("Error " ++ desc ++ " at line " ++ toString line ++
            " in file " ++ file, 1)) ∧
    (stat = cudaSuccess →
      CUDA_CHECK_RETURN stat desc line file = Except.ok ()) ∧
    launchesChecked (quantize n) = true ∧
    launchesChecked (dequantize n) = true ∧
    launchesChecked (quantizeBlockwise n) = true ∧
    launchesChecked (dequantizeBlockwise bs n) = true ∧
    launchesChecked (estimateQuantiles n) = true ∧
    launchesChecked (histogramScatterAdd2D n) = true ∧
    launchesChecked (percentileClipping step n) = true ∧
    launchesChecked (optimizer32bit opt mu n) = true ∧
    launchesChecked (optimizerStatic8bit opt mu n) = true ∧
    launchesChecked (optimizerStatic8bitBlockwise opt n) = true := by
  refine ⟨?_, ?_, ?_, ?_, ?_, ?_, ?_, ?_, ?_, ?_, ?_, ?_⟩
  · intro h; simp [CUDA_CHECK_RETURN, h]
  · intro h; simp [CUDA_CHECK_RETURN, h]
  · rfl
  · rfl
  · rfl
  · unfold dequantizeBlockwise; split
    · rfl
    · split <;> rfl
  · rfl
  · rfl
  · rfl
  · unfold optimizer32bit; split
    · split <;> rfl
    · split
      · split <;> rfl
      · rfl
  · unfold optimizerStatic8bit
    by_cases hmu : 0 < mu <;> simp only [hmu, if_true, if_neg, not_false_iff] <;>
      split <;> try split
    all_goals simp [launchesChecked, isCheck, hmu]
  · unfold optimizerStatic8bitBlockwise; split
    · rfl
    · split <;> rfl

/-- Witness for C7 at status 1 and status 0. -/
theorem claim7_error_policy_witness :
    CUDA_CHECK_RETURN 1 "invalid argument" 84 "ops.cu" =
      Except.error
        ("Error " ++ "invalid argument" ++ " at line " ++ toString 84 ++
          " in file " ++ "ops.cu", 1) ∧
    CUDA_CHECK_RETURN 0 "no error" 84 "ops.cu" = Except.ok () :=
  ⟨(claim7_error_policy 1 "invalid argument" "ops.cu" 84 0 0 0 0 0).1
      (by decide),
   (claim7_error_policy 0 "no error" "ops.cu" 84 0 0 0 0 0).2.1 rfl⟩

/-- C8: the explicit 8-bit-static instantiations are exactly
{ADAM, MOMENTUM, RMSPROP} × {half, float}; ADAGRAD appears with no element
type, although the dispatch switch would route it through the 1-state
case. -/
theorem claim8_static8bit_instantiations (t : ElemType) (n : ℕ) :
    ((ADAGRAD, t) ∉ optimizerStatic8bitInstantiations) ∧
    (∀ p : ℕ × ElemType,
      p ∈ optimizerStatic8bitInstantiations ↔
        (p.1 = ADAM ∨ p.1 = MOMENTUM ∨ p.1 = RMSPROP)) ∧
    optimizerStatic8bit ADAGRAD 0 n =
      [Ev.memset .newMax1,
       Ev.launch .kPreconditionOptimizerStatic8bit1State (blocksFor n 4096) 256,
       Ev.peekCheck,
       Ev.launch .kOptimizerStatic8bit1State (blocksFor n 4096) 1024,
       Ev.peekCheck] := by
  refine ⟨?_, ?_, ?_⟩
  · cases t <;> decide
  · rintro ⟨k, s⟩
    constructor
    · intro hp
      simp only [optimizerStatic8bitInstantiations, List.mem_cons,
        List.not_mem_nil, or_false] at hp
      rcases hp with h | h | h | h | h | h <;>
        simp_all [ADAM, MOMENTUM, RMSPROP]
    · rintro (h | h | h) <;> simp only at h <;> subst h <;> cases s <;> decide
  · simp [optimizerStatic8bit, ADAGRAD, ADAM, MOMENTUM, RMSPROP]

/-- Witness for C8: ADAGRAD at `half` is not instantiated while
`(MOMENTUM, float)` is. -/
theorem claim8_static8bit_instantiations_witness :
    ((ADAGRAD, ElemType.half) ∉ optimizerStatic8bitInstantiations) ∧
    (MOMENTUM, ElemType.float) ∈ optimizerStatic8bitInstantiations :=
  ⟨(claim8_static8bit_instantiations .half 0).1,
   ((claim8_static8bit_instantiations .half 0).2.1 (MOMENTUM, .float)).2
     (Or.inr (Or.inl rfl))⟩

lemma foldr_max_nonneg (l : List ℚ) : 0 ≤ l.foldr max 0 := by
  induction l with
  | nil => simp
  | cons x xs ih => exact le_max_of_le_right ih

lemma le_foldr_max (l : List ℚ) (x : ℚ) (hx : x ∈ l) : x ≤ l.foldr max 0 := by
  induction l with
  | nil => cases hx
  | cons y ys ih =>
    rcases List.mem_cons.mp hx with rfl | h
    · exact le_max_left _ _
    · exact le_trans (ih h) (le_max_right _ _)

lemma abs_le_blockAbsmax (A : ℕ → ℚ) (blocksize n i : ℕ)
    (hbs : 0 < blocksize) (hi : i < n) :
    |A i| ≤ blockAbsmax A blocksize n (i / blocksize) := by
  have h1 : (i / blocksize) * blocksize ≤ i := Nat.div_mul_le_self i blocksize
  have h2 : i < (i / blocksize + 1) * blocksize := by
    have hm := Nat.div_add_mod i blocksize
    have hlt := Nat.mod_lt i hbs
    calc i = blocksize * (i / blocksize) + i % blocksize := hm.symm
      _ < blocksize * (i / blocksize) + blocksize := by omega
      _ = (i / blocksize + 1) * blocksize := by ring
  apply le_foldr_max
  apply List.mem_map.mpr
  refine ⟨i - (i / blocksize) * blocksize, List.mem_range.mpr ?_, ?_⟩
  · unfold blockEnd
    omega
  · have harg : i / blocksize * blocksize + (i - i / blocksize * blocksize) = i := by
      omega
    simp [harg]

/-- C2: the blockwise round-trip (kernel arithmetic modelled from the
spec over exact rationals) — for blocksize 2048 or 4096 and `n` not a
multiple of blocksize, dequantizing the quantized buffer against the
recorded per-block absmax recovers every element, ragged final block
included, within `absmax[block] / 127`. -/
theorem claim2_blockwise_roundtrip (A : ℕ → ℚ) (blocksize n i : ℕ)
    (hbs : blocksize = 2048 ∨ blocksize = 4096)
    (hrag : n % blocksize ≠ 0) (hi : i < n) :
    |dequantizeBlockwiseElem (fun j => quantizeBlockwiseElem A blocksize n j)
        (blockAbsmax A blocksize n) blocksize i - A i| ≤
      blockAbsmax A blocksize n (i / blocksize) / 127 := by
  have hbs0 : 0 < blocksize := by rcases hbs with rfl | rfl <;> norm_num
  have habs : |A i| ≤ blockAbsmax A blocksize n (i / blocksize) :=
    abs_le_blockAbsmax A blocksize n i hbs0 hi
  have hmnn : 0 ≤ blockAbsmax A blocksize n (i / blocksize) :=
    foldr_max_nonneg _
  simp only [dequantizeBlockwiseElem, quantizeBlockwiseElem]
  set m := blockAbsmax A blocksize n (i / blocksize) with hmdef
  by_cases h0 : m = 0
  · have hA0 : A i = 0 := by
      rw [h0] at habs
      exact abs_nonpos_iff.mp habs
    simp [h0, hA0]
  · have hmpos : 0 < m := lt_of_le_of_ne hmnn (Ne.symm h0)
    rw [if_neg h0]
    set x := 127 * A i / m with hx
    have hAi : A i = x * m / 127 := by
      rw [hx]
      field_simp
    have hfactor : (round x : ℚ) * m / 127 - A i =
        ((round x : ℚ) - x) * (m / 127) := by
      rw [hAi]; ring
    rw [hfactor, abs_mul,
      abs_of_nonneg (div_nonneg hmnn (by norm_num : (0:ℚ) ≤ 127))]
    have hround : |(round x : ℚ) - x| ≤ 1 / 2 := by
      rw [abs_sub_comm]; exact abs_sub_round x
    have hdiv : 0 ≤ m / 127 := div_nonneg hmnn (by norm_num)
    calc |(round x : ℚ) - x| * (m / 127) ≤ (1 / 2) * (m / 127) :=
        mul_le_mul_of_nonneg_right hround hdiv
      _ ≤ m / 127 := by linarith

/-- Witness for C2 at `A = const 1`, blocksize 2048, `n = 1`, `i = 0`. -/
theorem claim2_blockwise_roundtrip_witness :
    (2048 = 2048 ∨ 2048 = 4096) ∧ 1 % 2048 ≠ 0 ∧ 0 < 1 ∧
    |dequantizeBlockwiseElem
        (fun j => quantizeBlockwiseElem (fun _ => (1 : ℚ)) 2048 1 j)
        (blockAbsmax (fun _ => (1 : ℚ)) 2048 1) 2048 0 - (1 : ℚ)| ≤
      blockAbsmax (fun _ => (1 : ℚ)) 2048 1 (0 / 2048) / 127 :=
  ⟨Or.inl rfl, by decide, by decide,
   claim2_blockwise_roundtrip (fun _ => (1 : ℚ)) 2048 1 0 (Or.inl rfl)
     (by decide) (by decide)⟩

lemma runSteps_append (G : ℕ → ℕ → ℚ) (n : ℕ) (l1 l2 : List ℕ)
    (v : ℕ → ℚ) :
    runSteps G n (l1 ++ l2) v = runSteps G n l2 (runSteps G n l1 v) := by
  unfold runSteps
  rw [List.foldl_append]

lemma percentileClippingRun_slot (g : ℕ → ℚ) (step n : ℕ) (v : ℕ → ℚ) :
    percentileClippingRun g step n v (step % 100) = gradSqNorm g n := by
  simp [percentileClippingRun, addToSlot, zeroSlot]

lemma percentileClippingRun_other (g : ℕ → ℚ) (step n s : ℕ) (v : ℕ → ℚ)
    (h : s ≠ step % 100) :
    percentileClippingRun g step n v s = v s := by
  simp [percentileClippingRun, addToSlot, zeroSlot, h]

lemma runSteps_untouched (G : ℕ → ℕ → ℚ) (n : ℕ) (steps : List ℕ)
    (v : ℕ → ℚ) (s : ℕ) (h : ∀ st ∈ steps, st % 100 ≠ s) :
    runSteps G n steps v s = v s := by
  induction steps generalizing v with
  | nil => rfl
  | cons st rest ih =>
    have hstep : runSteps G n (st :: rest) v =
        runSteps G n rest (percentileClippingRun (G st) st n v) := rfl
    rw [hstep, ih _ (fun t ht => h t (List.mem_cons_of_mem _ ht))]
    exact percentileClippingRun_other _ _ _ _ _
      (fun he => h st (List.mem_cons_self _ _) he.symm)

/-- C6: one `percentileClipping` call zeroes history slot `step % 100` and
then accumulates the norm of `g` into exactly that slot, leaving every
other slot alone; running steps 0..199 therefore leaves each slot
`s < 100` holding exactly the norm from step `100 + s`, the most recent
step congruent to `s` mod 100, with no contamination from earlier
steps. -/
theorem claim6_percentile_windowing (g : ℕ → ℚ) (step n : ℕ) (v : ℕ → ℚ)
    (G : ℕ → ℕ → ℚ) (v0 : ℕ → ℚ) (s : ℕ) :
    percentileClippingRun g step n v (step % 100) = gradSqNorm g n ∧
    (∀ s2, s2 ≠ step % 100 → percentileClippingRun g step n v s2 = v s2) ∧
    (s < 100 →
      runSteps G n (List.range 200) v0 s = gradSqNorm (G (100 + s)) n) := by
  refine ⟨percentileClippingRun_slot g step n v,
    fun s2 h => percentileClippingRun_other g step n s2 v h, ?_⟩
  intro hs
  have h200 : (200 : ℕ) = ((100 + s) + 1) + (99 - s) := by omega
  rw [h200, List.range_add, List.range_succ, runSteps_append,
    runSteps_append]
  have htail : ∀ st ∈ (List.range (99 - s)).map ((100 + s) + 1 + ·),
      st % 100 ≠ s := by
    intro st hst
    obtain ⟨j, hj, rfl⟩ := List.mem_map.mp hst
    have hj2 := List.mem_range.mp hj
    omega
  rw [runSteps_untouched G n _ _ s htail]
  have hmod : (100 + s) % 100 = s := by omega
  simp [runSteps, percentileClippingRun, addToSlot, zeroSlot, hmod]

/-- Witness for C6 at slot 50 with gradient buffers `G st = const st`. -/
theorem claim6_percentile_windowing_witness :
    50 < 100 ∧
    runSteps (fun st _ => (st : ℚ)) 1 (List.range 200) (fun _ => 0) 50 =
      gradSqNorm (fun _ => ((150 : ℕ) : ℚ)) 1 :=
  ⟨by norm_num,
   (claim6_percentile_windowing (fun _ => 0) 0 1 (fun _ => 0)
     (fun st _ => (st : ℚ)) (fun _ => 0) 50).2.2 (by norm_num)⟩

end Ops
